import Mathlib

/-!
Verification of the booking normalization and synchronization pipeline of
`online_reservation.py` (TIEReservation/TIE_API).

The pipeline's pure field normalizers (date parsing, passenger-count
parsing, string truncation, payment-status derivation), the record
transformer, and the deduplicating sync engines (API path and spreadsheet
path) are embedded as executable Lean definitions.  Python floats are
modelled as rationals (`Rat`); Python's `None`-or-value fields as
`Option`; the persistent store is an abstract insert function so that
store-reported outcomes (success, duplicate-key violation, other failure)
can be analysed.
-/

namespace TieApi

/- ## Calendar dates

`datetime.date` values are modelled by a year/month/day triple together
with Python's proleptic-Gregorian ordinal (`date.toordinal`), which is
what Python date subtraction `.days` is computed from. -/

structure Date where
  year : Nat
  month : Nat
  day : Nat
deriving DecidableEq, Repr

def isLeapYear (y : Nat) : Bool :=
  (y % 4 == 0 && y % 100 != 0) || y % 400 == 0

def daysInMonth (y m : Nat) : Nat :=
  if m = 2 then (if isLeapYear y then 29 else 28)
  else if m = 4 ∨ m = 6 ∨ m = 9 ∨ m = 11 then 30
  else 31

/-- `datetime` constructor validation: year 1..9999 (MINYEAR/MAXYEAR),
month 1..12, day 1..days-in-month; out of range raises `ValueError`,
modelled as `none`. -/
def mkValidDate (y m d : Nat) : Option Date :=
  if 1 ≤ y ∧ y ≤ 9999 ∧ 1 ≤ m ∧ m ≤ 12 ∧ 1 ≤ d ∧ d ≤ daysInMonth y m then
    some ⟨y, m, d⟩
  else none

def daysBeforeYear (y : Nat) : Nat :=
  (y - 1) * 365 + (y - 1) / 4 - (y - 1) / 100 + (y - 1) / 400

def daysBeforeMonth (y m : Nat) : Nat :=
  ((List.range (m - 1)).map (fun i => daysInMonth y (i + 1))).sum

/-- Python `date.toordinal`: day number in the proleptic Gregorian
calendar, with 0001-01-01 as ordinal 1. -/
def dateToOrdinal (d : Date) : Nat :=
  daysBeforeYear d.year + daysBeforeMonth d.year d.month + d.day

/-- Python `(a - b).days` for two dates: signed difference of ordinals. -/
def dateSubDays (a b : Date) : Int :=
  (dateToOrdinal a : Int) - (dateToOrdinal b : Int)

def padNum (w n : Nat) : String :=
  let s := toString n
  String.mk (List.replicate (w - s.length) '0') ++ s

/-- Python `str(date)`: ISO `YYYY-MM-DD` rendering. -/
def isoOfDate (d : Date) : String :=
  padNum 4 d.year ++ "-" ++ padNum 2 d.month ++ "-" ++ padNum 2 d.day

/- ## strptime on the literal formats used by the source

Python's `_strptime` compiles each directive to a regex:
`%d` = `3[01]|[12]\d|0[1-9]|[1-9]`, `%m` = `1[0-2]|0[1-9]|[1-9]`,
`%H` = `2[0-3]|[0-1]\d|\d`, `%M` = `[0-5]\d|\d`, `%Y` = exactly four
digits, a whitespace in the format = one-or-more whitespace, and the
whole input must be consumed.  In every format the source uses, each
numeric directive is followed by a non-digit literal (or the end of the
input), so a directive matches exactly when the maximal digit run at the
current position has the right length and value; that is how the
matchers below are written.  `%S` admits 60/61 at the regex level but
`datetime` then rejects them with `ValueError`, which every caller
catches the same way as a match failure, so seconds are bounded by 59
here.  Only ASCII digits are modelled. -/

def digitsToNat (ds : List Char) : Nat :=
  ds.foldl (fun n c => n * 10 + (c.toNat - 48)) 0

/-- One-or-two-digit numeric directive (`%d`, `%m`, `%H`, `%M`, `%S`),
parameterised by the admissible value range (a single digit is always in
range when it is ≥ lo). -/
def matchNum2 (lo hi : Nat) (cs : List Char) : Option (Nat × List Char) :=
  let run := cs.takeWhile Char.isDigit
  let rest := cs.dropWhile Char.isDigit
  if (run.length = 1 ∨ run.length = 2) ∧ lo ≤ digitsToNat run ∧ digitsToNat run ≤ hi then
    some (digitsToNat run, rest)
  else none

/-- `%Y`: exactly four digits. -/
def matchNum4 (cs : List Char) : Option (Nat × List Char) :=
  let run := cs.takeWhile Char.isDigit
  if run.length = 4 then some (digitsToNat run, cs.dropWhile Char.isDigit)
  else none

def matchLit (ch : Char) : List Char → Option (List Char)
  | c :: cs => if c = ch then some cs else none
  | [] => none

/-- A whitespace character in the format matches one or more whitespace
characters of the input. -/
def matchWs : List Char → Option (List Char)
  | c :: cs => if c.isWhitespace then some (cs.dropWhile Char.isWhitespace) else none
  | [] => none

/-- `datetime.strptime(s, "%d<sep>%m<sep>%Y %H:%M:%S").date()` with
`sep` either `/` or `-`; `none` models the `ValueError` on mismatch. -/
def strptime_dmY_HMS (sep : Char) (s : String) : Option Date :=
  (matchNum2 1 31 s.toList).bind fun dp =>
  (matchLit sep dp.2).bind fun r1 =>
  (matchNum2 1 12 r1).bind fun mp =>
  (matchLit sep mp.2).bind fun r2 =>
  (matchNum4 r2).bind fun yp =>
  (matchWs yp.2).bind fun r3 =>
  (matchNum2 0 23 r3).bind fun hp =>
  (matchLit ':' hp.2).bind fun r4 =>
  (matchNum2 0 59 r4).bind fun minp =>
  (matchLit ':' minp.2).bind fun r5 =>
  (matchNum2 0 59 r5).bind fun sp =>
  if sp.2 = [] then mkValidDate yp.1 mp.1 dp.1 else none

/-- `datetime.strptime(s, "%d<sep>%m<sep>%Y").date()`. -/
def strptime_dmY (sep : Char) (s : String) : Option Date :=
  (matchNum2 1 31 s.toList).bind fun dp =>
  (matchLit sep dp.2).bind fun r1 =>
  (matchNum2 1 12 r1).bind fun mp =>
  (matchLit sep mp.2).bind fun r2 =>
  (matchNum4 r2).bind fun yp =>
  if yp.2 = [] then mkValidDate yp.1 mp.1 dp.1 else none

/-- `parse_date` (lines 48-58): `None`/NaN/empty input gives `None`;
otherwise try `"%d/%m/%Y %H:%M:%S"`, then `"%d/%m/%Y"`, else `None`. -/
def parse_date : Option String → Option Date
  | none => none
  | some s =>
    if s = "" then none
    else
      match strptime_dmY_HMS '/' s with
      | some d => some d
      | none => strptime_dmY '/' s

/-- `parse_stayflexi_datetime` (lines 60-70): falsy input gives `None`;
otherwise try `"%d-%m-%Y %H:%M:%S"` on the whole string, then
`"%d-%m-%Y"` on the first 10 characters, else `None`. -/
def parse_stayflexi_datetime : Option String → Option Date
  | none => none
  | some s =>
    if s = "" then none
    else
      match strptime_dmY_HMS '-' s with
      | some d => some d
      | none => strptime_dmY '-' (s.take 10)

/- ## Passenger-count parsing (`parse_pax`, lines 72-98)

The source first collapses whitespace around commas
(`re.sub(r'\s*,\s*', ',', pax_str)`), splits on `','`, and strips each
part; since every part is stripped after the split and the substitution
only removes whitespace adjacent to commas, the substitution is
observationally absorbed into the per-part strip and is modelled that
way.  Python `int` accepts an optional sign and ASCII digits with single
underscores between digits (only ASCII digits are modelled; the callers'
data is ASCII). -/

def splitOnChar (sep : Char) : List Char → List (List Char)
  | [] => [[]]
  | c :: cs =>
    if c = sep then [] :: splitOnChar sep cs
    else
      match splitOnChar sep cs with
      | [] => [[c]]
      | p :: ps => (c :: p) :: ps

/-- Python `str.strip()`: drop leading and trailing whitespace. -/
def stripChars (cs : List Char) : List Char :=
  ((cs.dropWhile Char.isWhitespace).reverse.dropWhile Char.isWhitespace).reverse

/-- Digit tail of a Python integer literal: digits with single
underscores allowed between digits. -/
def pyDigitsGo (acc : Nat) : List Char → Option Nat
  | [] => some acc
  | '_' :: c :: cs =>
    if c.isDigit then pyDigitsGo (acc * 10 + (c.toNat - 48)) cs else none
  | ['_'] => none
  | c :: cs =>
    if c.isDigit then pyDigitsGo (acc * 10 + (c.toNat - 48)) cs else none

def pyNat : List Char → Option Nat
  | c :: cs => if c.isDigit then pyDigitsGo (c.toNat - 48) cs else none
  | [] => none

/-- Python `int(s)` on an already-stripped string: optional sign, then a
nonempty digit sequence; `none` models `ValueError`. -/
def pyInt (cs : List Char) : Option Int :=
  match cs with
  | [] => none
  | c :: rest =>
    if c = '+' then (pyNat rest).map Int.ofNat
    else if c = '-' then (pyNat rest).map (fun n => -Int.ofNat n)
    else (pyNat (c :: rest)).map Int.ofNat

/-- First occurrence of `pat` in `cs`: `some (before, after)` when
present (`pat in part` in Python), `none` otherwise.  `pat` is one of
the nonempty literals `"Adults:"`, `"Children:"`, `"Infant:"`. -/
def splitFirst (pat : List Char) : List Char → Option (List Char × List Char)
  | [] => if pat = [] then some ([], []) else none
  | c :: cs =>
    if pat.isPrefixOf (c :: cs) then some ([], (c :: cs).drop pat.length)
    else
      match splitFirst pat cs with
      | some (pre, post) => some (c :: pre, post)
      | none => none

/-- `part.split(pat)[1]`: the segment after the first occurrence of
`pat`, up to the next occurrence (or the end). -/
def segmentAfterFirst (pat cs : List Char) : List Char :=
  match splitFirst pat cs with
  | some (_, after) =>
    match splitFirst pat after with
    | some (pre, _) => pre
    | none => after
  | none => cs

/-- The label dispatch of one `for part in parts` iteration, on the
already-stripped part: the first matching label (checked in the order
Adults, Children, Infant, mirroring the `if`/`elif` chain) accumulates
its parsed count; a `ValueError` from `int` leaves the accumulator
unchanged. -/
def paxStepStripped (acc : Int × Int × Int) (part : List Char) : Int × Int × Int :=
  match splitFirst "Adults:".toList part with
  | some _ =>
    match pyInt (stripChars (segmentAfterFirst "Adults:".toList part)) with
    | some n => (acc.1 + n, acc.2.1, acc.2.2)
    | none => acc
  | none =>
    match splitFirst "Children:".toList part with
    | some _ =>
      match pyInt (stripChars (segmentAfterFirst "Children:".toList part)) with
      | some n => (acc.1, acc.2.1 + n, acc.2.2)
      | none => acc
    | none =>
      match splitFirst "Infant:".toList part with
      | some _ =>
        match pyInt (stripChars (segmentAfterFirst "Infant:".toList part)) with
        | some n => (acc.1, acc.2.1, acc.2.2 + n)
        | none => acc
      | none => acc

/-- One iteration of the `for part in parts` loop: `part = part.strip()`
then the label dispatch. -/
def paxStep (acc : Int × Int × Int) (part0 : List Char) : Int × Int × Int :=
  paxStepStripped acc (stripChars part0)

/-- `parse_pax` (lines 72-98): returns `(adults, children, infants)`. -/
def parse_pax : Option String → Int × Int × Int
  | none => (0, 0, 0)
  | some s =>
    if s = "" then (0, 0, 0)
    else (splitOnChar ',' s.toList).foldl paxStep (0, 0, 0)

/- ## String truncation and payment status -/

/-- `truncate_string` (lines 100-104) on a string value: falsy (empty)
input is returned unchanged, otherwise the value is capped at
`maxLength` characters. -/
def truncate_string (value : String) (maxLength : Nat) : String :=
  if value = "" then value
  else if value.length > maxLength then value.take maxLength else value

/-- `truncate_string` on Python's `None`-or-string domain: `None` is
falsy and is returned unchanged. -/
def truncate_py (value : Option String) (maxLength : Nat) : Option String :=
  match value with
  | none => none
  | some s => some (truncate_string s maxLength)

/-- `calculate_payment_status` (lines 106-113). -/
def calculate_payment_status (total_payment booking_amount : Rat) : String :=
  if total_payment ≥ booking_amount then "Fully Paid"
  else if total_payment > 0 then "Partially Paid"
  else "Not Paid"

/- ## Canonical reservation record

The dictionary built by `transform_stayflexi_to_db_format`
(lines 321-361).  The spreadsheet path (lines 464-498) builds the same
record minus the trailing keys from `total_amount_with_services` onwards
that the API path hard-codes; those keys are represented here too and
set to the API path's constants, which is observationally equal for the
operations under verification (the store insert only rewrites the
bounded string fields, all of which both paths supply). -/

structure Reservation where
  property : String
  booking_id : String
  booking_made_on : Option String
  guest_name : String
  guest_phone : String
  check_in : Option String
  check_out : Option String
  no_of_adults : Int
  no_of_children : Int
  no_of_infant : Int
  total_pax : Int
  room_no : String
  room_type : String
  rate_plans : String
  booking_source : String
  segment : String
  staflexi_status : String
  booking_confirmed_on : Option String
  booking_amount : Rat
  total_payment_made : Rat
  balance_due : Rat
  mode_of_booking : String
  booking_status : String
  payment_status : String
  remarks : String
  submitted_by : String
  modified_by : String
  total_amount_with_services : Rat
  ota_gross_amount : Rat
  ota_commission : Rat
  ota_tax : Rat
  ota_net_amount : Rat
  room_revenue : Rat
  room_nights : Int
  advance_mop : String
  balance_mop : String
  advance_remarks : String
  balance_remarks : String
  accounts_status : String
deriving DecidableEq, Repr

/- ## Upstream API booking objects

The fields of a `resInfoList` entry that
`transform_stayflexi_to_db_format` and `fetch_stayflexi_bookings` read,
with the defaults the `.get` calls supply.  `roomPrice` and `balanceDue`
are modelled as rationals (the `float(...)` conversions); exceptions
from malformed upstream values, which a typed embedding cannot express,
are covered by the exception oracle of the sync loop below. -/

structure StayflexiBooking where
  username : String
  userContact : String
  userEmail : String
  checkin : Option String
  checkout : Option String
  room_id : String
  room_type_name : String
  bookingId : String
  reservationId : String
  bookingSource : String
  segment : String
  reservationStatus : String
  roomPrice : Rat
  balanceDue : Rat
  groupBooking : Bool
  lockedStatus : String
deriving DecidableEq, Repr

/-- A booking with every `.get` default: the baseline for concrete
examples. -/
def emptyBooking : StayflexiBooking :=
  { username := "", userContact := "", userEmail := "", checkin := none,
    checkout := none, room_id := "", room_type_name := "", bookingId := "",
    reservationId := "", bookingSource := "", segment := "",
    reservationStatus := "", roomPrice := 0, balanceDue := 0,
    groupBooking := false, lockedStatus := "" }

/-- `transform_stayflexi_to_db_format` (lines 257-363). -/
def transform_stayflexi_to_db_format (booking : StayflexiBooking)
    (property_name : String) : Reservation :=
  let guest_name := truncate_string booking.username 50
  let guest_phone := truncate_string booking.userContact 50
  let guest_email := booking.userEmail
  let check_in := parse_stayflexi_datetime booking.checkin
  let check_out := parse_stayflexi_datetime booking.checkout
  let room_no := truncate_string booking.room_id 50
  let room_type := truncate_string booking.room_type_name 50
  let booking_id := truncate_string booking.bookingId 50
  let reservation_id := booking.reservationId
  let booking_source := truncate_string booking.bookingSource 50
  let segment := truncate_string booking.segment 50
  let staflexi_status := truncate_string booking.reservationStatus 50
  let room_price := booking.roomPrice
  let balance_due := booking.balanceDue
  let booking_amount := room_price
  let total_payment_made :=
    if balance_due ≤ booking_amount then booking_amount - balance_due else 0
  let room_nights : Int :=
    match check_in, check_out with
    | some ci, some co => dateSubDays co ci
    | _, _ => 0
  let payment_status := calculate_payment_status total_payment_made booking_amount
  let no_of_adults : Int := 2
  let no_of_children : Int := 0
  let no_of_infant : Int := 0
  let total_pax := no_of_adults
  let is_group_booking := booking.groupBooking
  let locked_status := booking.lockedStatus
  let remarks_parts :=
    (if guest_email ≠ "" then ["Email: " ++ guest_email] else []) ++
    (if reservation_id ≠ "" then ["Reservation ID: " ++ reservation_id] else []) ++
    (if is_group_booking then ["Group Booking"] else []) ++
    (if locked_status = "LOCKED" then ["Room Locked"] else [])
  let remarks := truncate_string (String.intercalate " | " remarks_parts) 500
  let booking_status := if staflexi_status = "CONFIRMED" then "Confirmed" else "Pending"
  { property := property_name
    booking_id := booking_id
    booking_made_on := none
    guest_name := guest_name
    guest_phone := guest_phone
    check_in := check_in.map isoOfDate
    check_out := check_out.map isoOfDate
    no_of_adults := no_of_adults
    no_of_children := no_of_children
    no_of_infant := no_of_infant
    total_pax := total_pax
    room_no := room_no
    room_type := room_type
    rate_plans := ""
    booking_source := booking_source
    segment := segment
    staflexi_status := staflexi_status
    booking_confirmed_on := none
    booking_amount := booking_amount
    total_payment_made := total_payment_made
    balance_due := balance_due
    mode_of_booking := booking_source
    booking_status := booking_status
    payment_status := payment_status
    remarks := remarks
    submitted_by := "Stayflexi API"
    modified_by := ""
    total_amount_with_services := 0
    ota_gross_amount := 0
    ota_commission := 0
    ota_tax := 0
    ota_net_amount := 0
    room_revenue := room_price
    room_nights := room_nights
    advance_mop := ""
    balance_mop := ""
    advance_remarks := ""
    balance_remarks := ""
    accounts_status := "Pending" }

/- ## Store collaborator and `insert_online_reservation`

The Supabase table is an external collaborator; an insert attempt ends
in exactly one of three ways that the `except` clause of
`insert_online_reservation` distinguishes: success, a duplicate-key
violation (`23505 duplicate key value`), or any other failure.  A store
model is an arbitrary state-passing insert function, so that theorems
quantify over every possible store behaviour; concrete instantiations
(a faithful keyed store, an always-failing store, a recording store)
are defined below. -/

inductive InsertOutcome
  | ok
  | dupKey
  | otherFail
deriving DecidableEq, Repr

def InsertFun (σ : Type) : Type :=
  σ → Reservation → InsertOutcome × σ

/-- The truncation step of `insert_online_reservation` (lines 118-131):
the fifteen `string_fields_50` entries are capped at 50 characters and
`remarks` at 500.  Every listed key is present in the records both call
sites build, so the `if field in ...` membership tests are always
true. -/
def truncate_reservation (r : Reservation) : Reservation :=
  { r with
    property := truncate_string r.property 50
    booking_id := truncate_string r.booking_id 50
    guest_name := truncate_string r.guest_name 50
    guest_phone := truncate_string r.guest_phone 50
    room_no := truncate_string r.room_no 50
    room_type := truncate_string r.room_type 50
    rate_plans := truncate_string r.rate_plans 50
    booking_source := truncate_string r.booking_source 50
    segment := truncate_string r.segment 50
    staflexi_status := truncate_string r.staflexi_status 50
    mode_of_booking := truncate_string r.mode_of_booking 50
    booking_status := truncate_string r.booking_status 50
    payment_status := truncate_string r.payment_status 50
    submitted_by := truncate_string r.submitted_by 50
    modified_by := truncate_string r.modified_by 50
    remarks := truncate_string r.remarks 500 }

/-- `insert_online_reservation` (lines 115-139): truncate the record,
issue the store insert, and report a plain boolean — `True` on success
(`bool(response.data)`), `False` both for a duplicate-key violation
(silently) and for any other store failure (after displaying an error
message).  The two failure modes are indistinguishable to the caller. -/
def insert_online_reservation {σ : Type} (M : InsertFun σ) (st : σ)
    (reservation : Reservation) : Bool × σ :=
  match M st (truncate_reservation reservation) with
  | (InsertOutcome.ok, st') => (true, st')
  | (InsertOutcome.dupKey, st') => (false, st')
  | (InsertOutcome.otherFail, st') => (false, st')

/-- Faithful keyed store: the table state is the list of persisted
`booking_id` keys; an insert succeeds exactly when the (truncated)
key is not yet present, and a duplicate key raises the 23505
violation. -/
def setStore : InsertFun (List String) :=
  fun st r => if r.booking_id ∈ st then (InsertOutcome.dupKey, st)
              else (InsertOutcome.ok, r.booking_id :: st)

/-- Keyed store that additionally counts how many insert attempts reach
the store. -/
def countingStore : InsertFun (List String × Nat) :=
  fun st r =>
    match setStore st.1 r with
    | (out, l) => (out, (l, st.2 + 1))

/-- Store that records every record it is handed and always succeeds. -/
def recordStore : InsertFun (List Reservation) :=
  fun st r => (InsertOutcome.ok, r :: st)

/-- Store on which every insert fails with a non-duplicate error. -/
def failStore : InsertFun Unit :=
  fun st _ => (InsertOutcome.otherFail, st)

/- ## Fetch result extraction (`fetch_stayflexi_bookings`, lines 184-255)

The HTTP outcome is an input (the network is external).  A 401 — whether
seen directly on the response or re-raised as an `HTTPError` — yields
the distinguished `unauthorized` value; a well-shaped 200 yields the
reservation entries of every room, each augmented with its room's id and
type name, with the `BLOCKED` entries dropped (`continue`) before that;
an unexpected JSON shape, any other HTTP error, and any transport error
all yield the empty booking list. -/

structure RoomData where
  roomId : String
  roomTypeName : String
  resInfoList : List StayflexiBooking
deriving DecidableEq, Repr

structure ApiResponse where
  singleRoomReservations : List RoomData
deriving DecidableEq, Repr

inductive HttpResult
  | unauthorized
  | okJson (resp : ApiResponse)
  | okUnexpectedShape
  | httpError
  | transportError
deriving DecidableEq, Repr

inductive FetchResult
  | authError
  | records (bs : List StayflexiBooking)
deriving DecidableEq, Repr

/-- The per-room extraction loop (lines 220-240). -/
def extract_bookings (resp : ApiResponse) : List StayflexiBooking :=
  resp.singleRoomReservations.flatMap fun room =>
    (room.resInfoList.filter fun r => r.reservationStatus ≠ "BLOCKED").map
      fun r => { r with room_id := room.roomId, room_type_name := room.roomTypeName }

def fetch_stayflexi_bookings : HttpResult → FetchResult
  | HttpResult.unauthorized => FetchResult.authError
  | HttpResult.okJson resp => FetchResult.records (extract_bookings resp)
  | HttpResult.okUnexpectedShape => FetchResult.records []
  | HttpResult.httpError => FetchResult.records []
  | HttpResult.transportError => FetchResult.records []

/- ## Deduplicating sync engine, API path
(`sync_property_bookings`, lines 365-398)

The in-run existing-keys set is modelled as a list of strings.  The
`try`/`except` around the loop body can only be triggered by malformed
upstream values (e.g. a non-numeric `roomPrice` fed to `float`), which
the typed embedding renders impossible; the `raises` oracle supplies,
per booking, whether the body raises, in which case nothing else of the
iteration runs and `errors` is incremented. -/

structure Counters where
  inserted : Nat
  skipped : Nat
  errors : Nat
deriving DecidableEq, Repr

def Counters.zero : Counters := ⟨0, 0, 0⟩

def addCounters (a b : Counters) : Counters :=
  ⟨a.inserted + b.inserted, a.skipped + b.skipped, a.errors + b.errors⟩

structure SyncState (σ : Type) where
  store : σ
  existing : List String
  counts : Counters

/-- The body of `for booking in api_bookings` (lines 380-396). -/
def sync_step {σ : Type} (M : InsertFun σ) (raises : StayflexiBooking → Bool)
    (property_name : String) (s : SyncState σ) (booking : StayflexiBooking) :
    SyncState σ :=
  if raises booking then
    { s with counts := { s.counts with errors := s.counts.errors + 1 } }
  else
    let db_record := transform_stayflexi_to_db_format booking property_name
    if db_record.booking_id ∈ s.existing then
      { s with counts := { s.counts with skipped := s.counts.skipped + 1 } }
    else
      match insert_online_reservation M s.store db_record with
      | (true, st') =>
        { store := st'
          existing := db_record.booking_id :: s.existing
          counts := { s.counts with inserted := s.counts.inserted + 1 } }
      | (false, st') =>
        { s with store := st'
                 counts := { s.counts with skipped := s.counts.skipped + 1 } }

/-- `sync_property_bookings`: returns the final per-property state and
the `auth_status` component (`some "unauthorized"` or `None`).  An
authorization error returns the zero counters untouched; an empty
booking list (which also stands for a transport or server failure of
the fetch) likewise. -/
def sync_property_bookings {σ : Type} (M : InsertFun σ)
    (raises : StayflexiBooking → Bool) (property_name : String)
    (fetched : FetchResult) (st : σ) (existing : List String) :
    SyncState σ × Option String :=
  match fetched with
  | FetchResult.authError =>
    (⟨st, existing, Counters.zero⟩, some "unauthorized")
  | FetchResult.records bs =>
    (bs.foldl (sync_step M raises property_name) ⟨st, existing, Counters.zero⟩, none)

/- ## The multi-property API sync loop
(`show_online_reservations`, lines 636-691)

One source unit per property: its display name plus the fetch outcome
the API would report for it (the network being external, the outcome is
data).  On `unauthorized` the loop sets the auth-error flag and breaks
before accumulating that unit's (zero) counters or recording it in
`property_results`; otherwise totals and per-property results are
accumulated and the next unit is processed. -/

structure ApiUnit where
  property_name : String
  fetched : FetchResult
deriving DecidableEq, Repr

structure ApiRun (σ : Type) where
  store : σ
  existing : List String
  totals : Counters
  property_results : List (String × Counters)
  auth_error : Bool

def runApiSync {σ : Type} (M : InsertFun σ) (raises : StayflexiBooking → Bool)
    (units : List ApiUnit) (acc : ApiRun σ) : ApiRun σ :=
  match units with
  | [] => acc
  | u :: rest =>
    match sync_property_bookings M raises u.property_name u.fetched acc.store acc.existing with
    | (_, some _) => { acc with auth_error := true }
    | (s, none) =>
      runApiSync M raises rest
        { store := s.store
          existing := s.existing
          totals := addCounters acc.totals s.counts
          property_results := acc.property_results ++ [(u.property_name, s.counts)]
          auth_error := acc.auth_error }

/-- The initial accumulator of one sync invocation: the snapshot of
existing keys is taken once (`get_existing_booking_ids`). -/
def initApiRun {σ : Type} (st : σ) (existing : List String) : ApiRun σ :=
  ⟨st, existing, Counters.zero, [], false⟩

/- ## Spreadsheet ingestion path
(`process_and_sync_excel`, lines 400-507)

One row of the uploaded sheet, with cell values already carried through
the scalar conversions (`str`, `safe_int`, `safe_float` — the latter
two live in the repository's `utils` module, whose numeric coercions the
claims under verification do not depend on).  Property-name resolution
(`get_property_name`, also in `utils`, with the hotel-name fallback) is
likewise outside the claims, so the resolved display name is an input
field. -/

structure ExcelRow where
  property_name : String
  booking_id : String
  booking_made_on : Option String
  customer_name : String
  customer_phone : String
  checkin : Option String
  checkout : Option String
  pax : String
  room_ids : String
  room_types : String
  rate_plans : String
  booking_source : String
  segment : String
  status : String
  booking_amount : Rat
  total_payment_made : Rat
  balance_due : Rat
  special_requests : String
  total_amount_with_services : Rat
  ota_gross_amount : Rat
  ota_commission : Rat
  ota_tax : Rat
  ota_net_amount : Rat
  room_revenue : Rat
deriving DecidableEq, Repr

/-- The record a spreadsheet row is turned into (lines 426-498),
including the inline payment-status chain of lines 447-452.  The keys
from `room_nights` onward are absent from the spreadsheet record; see
the note on `Reservation`. -/
def excel_row_to_reservation (row : ExcelRow) : Reservation :=
  let booking_made_on := parse_date row.booking_made_on
  let guest_name := truncate_string row.customer_name 50
  let guest_phone := truncate_string row.customer_phone 50
  let check_in := parse_date row.checkin
  let check_out := parse_date row.checkout
  let pax := parse_pax (some row.pax)
  let no_of_adults := pax.1
  let no_of_children := pax.2.1
  let no_of_infant := pax.2.2
  let total_pax := no_of_adults + no_of_children + no_of_infant
  let room_no := truncate_string row.room_ids 50
  let room_type := truncate_string row.room_types 50
  let rate_plans := truncate_string row.rate_plans 50
  let booking_source := truncate_string row.booking_source 50
  let segment := truncate_string row.segment 50
  let staflexi_status := truncate_string row.status 50
  let mode_of_booking := truncate_string booking_source 50
  let payment_status :=
    if row.total_payment_made ≥ row.booking_amount then "Fully Paid"
    else if row.total_payment_made > 0 then "Partially Paid"
    else "Not Paid"
  let remarks := truncate_string row.special_requests 500
  { property := row.property_name
    booking_id := row.booking_id
    booking_made_on := booking_made_on.map isoOfDate
    guest_name := guest_name
    guest_phone := guest_phone
    check_in := check_in.map isoOfDate
    check_out := check_out.map isoOfDate
    no_of_adults := no_of_adults
    no_of_children := no_of_children
    no_of_infant := no_of_infant
    total_pax := total_pax
    room_no := room_no
    room_type := room_type
    rate_plans := rate_plans
    booking_source := booking_source
    segment := segment
    staflexi_status := staflexi_status
    booking_confirmed_on := none
    booking_amount := row.booking_amount
    total_payment_made := row.total_payment_made
    balance_due := row.balance_due
    mode_of_booking := mode_of_booking
    booking_status := "Pending"
    payment_status := payment_status
    remarks := remarks
    submitted_by := ""
    modified_by := ""
    total_amount_with_services := row.total_amount_with_services
    ota_gross_amount := row.ota_gross_amount
    ota_commission := row.ota_commission
    ota_tax := row.ota_tax
    ota_net_amount := row.ota_net_amount
    room_revenue := row.room_revenue
    room_nights := 0
    advance_mop := ""
    balance_mop := ""
    advance_remarks := ""
    balance_remarks := ""
    accounts_status := "Pending" }

structure ExcelState (σ : Type) where
  store : σ
  existing : List String
  inserted : Nat
  skipped : Nat

/-- The body of `for _, row in df.iterrows()` (lines 413-502): an empty
booking id is silently passed over; a booking id found in the snapshot
counts as skipped without contacting the store; otherwise the insert is
attempted, a success incrementing `inserted` and a failure incrementing
nothing — and in no case is the id added to the in-run set. -/
def excel_step {σ : Type} (M : InsertFun σ) (s : ExcelState σ) (row : ExcelRow) :
    ExcelState σ :=
  if row.booking_id = "" then s
  else if row.booking_id ∈ s.existing then { s with skipped := s.skipped + 1 }
  else
    match insert_online_reservation M s.store (excel_row_to_reservation row) with
    | (true, st') => { s with store := st', inserted := s.inserted + 1 }
    | (false, st') => { s with store := st' }

/-- `process_and_sync_excel`: the snapshot of existing ids is taken once
from the store's current records; the run returns the
`(inserted, skipped)` pair. -/
def process_and_sync_excel {σ : Type} (M : InsertFun σ) (st : σ)
    (existing : List String) (rows : List ExcelRow) : ExcelState σ :=
  rows.foldl (excel_step M) ⟨st, existing, 0, 0⟩

/- ## Helper lemmas -/

theorem truncate_string_length_le (value : String) (maxLength : Nat) :
    (truncate_string value maxLength).length ≤ maxLength := by
  unfold truncate_string
  split
  · simp_all
  · split
    · rw [String.take_eq]
      show (value.data.take maxLength).length ≤ maxLength
      simp
    · omega

/-- The bounds the store schema declares for the string fields that
`insert_online_reservation` truncates. -/
def boundedFieldsOk (r : Reservation) : Prop :=
  r.property.length ≤ 50 ∧ r.booking_id.length ≤ 50 ∧ r.guest_name.length ≤ 50 ∧
  r.guest_phone.length ≤ 50 ∧ r.room_no.length ≤ 50 ∧ r.room_type.length ≤ 50 ∧
  r.rate_plans.length ≤ 50 ∧ r.booking_source.length ≤ 50 ∧ r.segment.length ≤ 50 ∧
  r.staflexi_status.length ≤ 50 ∧ r.mode_of_booking.length ≤ 50 ∧
  r.booking_status.length ≤ 50 ∧ r.payment_status.length ≤ 50 ∧
  r.submitted_by.length ≤ 50 ∧ r.modified_by.length ≤ 50 ∧ r.remarks.length ≤ 500

theorem truncate_reservation_bounded (r : Reservation) :
    boundedFieldsOk (truncate_reservation r) := by
  refine ⟨?_, ?_, ?_, ?_, ?_, ?_, ?_, ?_, ?_, ?_, ?_, ?_, ?_, ?_, ?_, ?_⟩ <;>
    exact truncate_string_length_le _ _

/- ## C1: payment-status derivation -/

/-- C1 (counterexample): the claim asserts that the input
`(paid = 0, owed = 0)` derives the status "Not Paid"; the code's first
comparison `total_payment >= booking_amount` already succeeds at
`0 >= 0`, so the derived status is "Fully Paid". -/
theorem C1_counterexample :
    calculate_payment_status 0 0 = "Fully Paid" ∧
    calculate_payment_status 0 0 ≠ "Not Paid" := by
  constructor
  · rfl
  · intro h
    simp [calculate_payment_status] at h

/-- C1 (amended): for all amounts, `paid >= owed` derives "Fully Paid"
(in particular `(0, 0)` derives "Fully Paid", not "Not Paid"),
`0 < paid < owed` derives "Partially Paid", and `paid == 0 < owed`
derives "Not Paid"; the inline payment-status chain of the spreadsheet
path (lines 447-452) computes exactly `calculate_payment_status`. -/
theorem C1_payment_status (paid owed : Rat) :
    (owed ≤ paid → calculate_payment_status paid owed = "Fully Paid")
  ∧ (0 < paid ∧ paid < owed → calculate_payment_status paid owed = "Partially Paid")
  ∧ (paid = 0 ∧ 0 < owed → calculate_payment_status paid owed = "Not Paid")
  ∧ (calculate_payment_status 0 0 = "Fully Paid")
  ∧ (∀ row : ExcelRow, (excel_row_to_reservation row).payment_status
      = calculate_payment_status row.total_payment_made row.booking_amount) := by
  refine ⟨fun h => ?_, fun h => ?_, fun h => ?_, rfl, fun row => rfl⟩
  · simp only [calculate_payment_status, ge_iff_le]
    rw [if_pos h]
  · simp only [calculate_payment_status, ge_iff_le]
    rw [if_neg (not_le.mpr h.2), if_pos h.1]
  · obtain ⟨h0, how⟩ := h
    subst h0
    simp only [calculate_payment_status, ge_iff_le]
    rw [if_neg (not_le.mpr how), if_neg (lt_irrefl 0)]

/-- C1 (witness): the amended theorem evaluated at `(50, 100)`. -/
theorem C1_witness : calculate_payment_status 50 100 = "Partially Paid" :=
  (C1_payment_status 50 100).2.1 ⟨by norm_num, by norm_num⟩

/- ## C5: truncation invariant -/

/-- C5: the truncation function never returns more than the requested
bound; `None` and the empty string pass through unchanged; the record
handed to the store by `insert_online_reservation` is exactly the
truncation of the record the caller supplied, and every bounded string
field of that truncated record is within its declared bound (50 for the
`string_fields_50` list, 500 for `remarks`). -/
theorem C5_truncation :
    (∀ (value : String) (maxLength : Nat),
        (truncate_string value maxLength).length ≤ maxLength)
  ∧ (∀ maxLength : Nat,
        truncate_py none maxLength = none ∧ truncate_string "" maxLength = "")
  ∧ (∀ (st : List Reservation) (r : Reservation),
        insert_online_reservation recordStore st r = (true, truncate_reservation r :: st))
  ∧ (∀ r : Reservation, boundedFieldsOk (truncate_reservation r)) :=
  ⟨truncate_string_length_le,
   fun _ => ⟨rfl, rfl⟩,
   fun _ _ => rfl,
   truncate_reservation_bounded⟩

/- ## C10: implicit occupancy defaults on the API path -/

/-- C10: every record produced by the API-path transformer carries the
hard-coded occupancy `no_of_adults = 2`, `no_of_children = 0`,
`no_of_infant = 0`, `total_pax = 2`, independent of the upstream
booking's contents. -/
theorem C10_occupancy_defaults (booking : StayflexiBooking) (property_name : String) :
    (transform_stayflexi_to_db_format booking property_name).no_of_adults = 2
  ∧ (transform_stayflexi_to_db_format booking property_name).no_of_children = 0
  ∧ (transform_stayflexi_to_db_format booking property_name).no_of_infant = 0
  ∧ (transform_stayflexi_to_db_format booking property_name).total_pax = 2 :=
  ⟨rfl, rfl, rfl, rfl⟩

/- ## C6: room-nights derivation -/

/-- An API booking whose stay window is the worked example of the spec:
check-in 2025-12-01, check-out 2025-12-05. -/
def exampleStayBooking : StayflexiBooking :=
  { emptyBooking with
    checkin := some "01-12-2025 14:00:00", checkout := some "05-12-2025 11:00:00" }

/-- An API booking whose check-out precedes its check-in. -/
def reversedStayBooking : StayflexiBooking :=
  { emptyBooking with
    checkin := some "05-12-2025 14:00:00", checkout := some "01-12-2025 11:00:00" }

/-- C6 (counterexample): the claim asserts `room_nights` is always
non-negative, but the code computes the signed day difference
`(check_out - check_in).days` without clamping, so a booking whose
check-out 2025-12-01 precedes its check-in 2025-12-05 produces
`room_nights = -4`. -/
theorem C6_counterexample :
    (transform_stayflexi_to_db_format reversedStayBooking "P").room_nights = -4
  ∧ ¬(0 ≤ (transform_stayflexi_to_db_format reversedStayBooking "P").room_nights) := by
  constructor
  · decide
  · decide

/-- C6 (amended): when both dates parse, `room_nights` is the signed
number of days from check-in to check-out (so it is negative when
check-out precedes check-in, not always non-negative); when either date
is missing or unparseable it is 0; check-in 2025-12-01 with check-out
2025-12-05 gives 4. -/
theorem C6_room_nights (b : StayflexiBooking) (p : String) :
    (∀ d1 d2, parse_stayflexi_datetime b.checkin = some d1 →
        parse_stayflexi_datetime b.checkout = some d2 →
        (transform_stayflexi_to_db_format b p).room_nights = dateSubDays d2 d1)
  ∧ ((parse_stayflexi_datetime b.checkin = none ∨
        parse_stayflexi_datetime b.checkout = none) →
        (transform_stayflexi_to_db_format b p).room_nights = 0)
  ∧ (transform_stayflexi_to_db_format exampleStayBooking "P").room_nights = 4 := by
  have hmatch : (transform_stayflexi_to_db_format b p).room_nights
      = (match parse_stayflexi_datetime b.checkin, parse_stayflexi_datetime b.checkout with
         | some ci, some co => dateSubDays co ci
         | _, _ => 0) := rfl
  refine ⟨fun d1 d2 h1 h2 => ?_, fun h => ?_, by decide⟩
  · rw [hmatch, h1, h2]
  · rcases h with h | h
    · rw [hmatch, h]
    · rcases hci : parse_stayflexi_datetime b.checkin with _ | d <;> rw [hmatch, hci, h]

/-- C6 (witness): the amended theorem evaluated on the example stay. -/
theorem C6_witness :
    (transform_stayflexi_to_db_format exampleStayBooking "P").room_nights
      = dateSubDays ⟨2025, 12, 5⟩ ⟨2025, 12, 1⟩ :=
  (C6_room_nights exampleStayBooking "P").1 ⟨2025, 12, 1⟩ ⟨2025, 12, 5⟩
    (by decide) (by decide)

/- ## C8: date parsing -/

/-- C8 (counterexample): the claim lists ISO-8601 (with optional `Z`)
among the formats the parsers try; neither parser accepts an ISO-8601
input — both return the absent value on a valid ISO date and on a valid
ISO timestamp with `Z` suffix. -/
theorem C8_counterexample :
    parse_date (some "2025-12-01") = none
  ∧ parse_stayflexi_datetime (some "2025-12-01T14:00:00Z") = none
  ∧ parse_stayflexi_datetime (some "2025-12-01") = none := by
  refine ⟨by decide, by decide, by decide⟩

/-- C8 (amended): `parse_date` tries `%d/%m/%Y %H:%M:%S` and then
`%d/%m/%Y`; `parse_stayflexi_datetime` tries `%d-%m-%Y %H:%M:%S` and
then `%d-%m-%Y` on the first 10 characters; both are total functions
returning the absent value when no format matches (never raising), and
ISO-8601 is not among the accepted formats. -/
theorem C8_date_parsing (s : String) (d : Date) :
    (strptime_dmY_HMS '/' s = some d → parse_date (some s) = some d)
  ∧ (strptime_dmY_HMS '/' s = none → parse_date (some s) = strptime_dmY '/' s)
  ∧ (strptime_dmY_HMS '-' s = some d → parse_stayflexi_datetime (some s) = some d)
  ∧ (strptime_dmY_HMS '-' s = none →
      parse_stayflexi_datetime (some s) = strptime_dmY '-' (s.take 10))
  ∧ parse_date none = none
  ∧ parse_stayflexi_datetime none = none
  ∧ parse_date (some "01/12/2025 14:00:00") = some ⟨2025, 12, 1⟩
  ∧ parse_date (some "01/12/2025") = some ⟨2025, 12, 1⟩
  ∧ parse_stayflexi_datetime (some "28-12-2025 14:00:00") = some ⟨2025, 12, 28⟩
  ∧ parse_date (some "31/02/2025") = none
  ∧ parse_date (some "2025-12-01T14:00:00Z") = none := by
  by_cases hs : s = ""
  · subst hs
    have h1 : strptime_dmY_HMS '/' "" = none := by decide
    have h2 : strptime_dmY_HMS '-' "" = none := by decide
    exact ⟨fun h => Option.noConfusion (h1 ▸ h), fun _ => by decide,
      fun h => Option.noConfusion (h2 ▸ h), fun _ => by decide,
      rfl, rfl, by decide, by decide, by decide, by decide, by decide⟩
  · refine ⟨fun h => ?_, fun h => ?_, fun h => ?_, fun h => ?_,
      rfl, rfl, by decide, by decide, by decide, by decide, by decide⟩
    · simp only [parse_date, if_neg hs]
      rw [h]
    · simp only [parse_date, if_neg hs]
      rw [h]
    · simp only [parse_stayflexi_datetime, if_neg hs]
      rw [h]
    · simp only [parse_stayflexi_datetime, if_neg hs]
      rw [h]

/-- C8 (witness): the amended theorem applied at a concrete date-only
input, whose time-bearing format attempt fails, falling through to the
second format. -/
theorem C8_witness :
    parse_date (some "01/12/2025") = strptime_dmY '/' "01/12/2025" :=
  (C8_date_parsing "01/12/2025" ⟨2025, 12, 1⟩).2.1 (by decide)

/- ## C7: passenger-count parsing -/

theorem stripChars_subset (cs : List Char) : stripChars cs ⊆ cs := by
  intro x hx
  unfold stripChars at hx
  rw [List.mem_reverse] at hx
  replace hx := List.dropWhile_subset _ hx
  rw [List.mem_reverse] at hx
  exact List.dropWhile_subset _ hx

theorem splitFirst_subset (pat : List Char) (cs : List Char) :
    ∀ pre post, splitFirst pat cs = some (pre, post) → pre ⊆ cs ∧ post ⊆ cs := by
  induction cs with
  | nil =>
    intro pre post h
    unfold splitFirst at h
    split at h
    · simp only [Option.some.injEq, Prod.mk.injEq] at h
      obtain ⟨h1, h2⟩ := h
      subst h1
      subst h2
      exact ⟨List.nil_subset _, List.nil_subset _⟩
    · cases h
  | cons c cs ih =>
    intro pre post h
    unfold splitFirst at h
    split at h
    · simp only [Option.some.injEq, Prod.mk.injEq] at h
      obtain ⟨h1, h2⟩ := h
      subst h1
      subst h2
      exact ⟨List.nil_subset _, List.drop_subset _ _⟩
    · cases hrec : splitFirst pat cs with
      | none => rw [hrec] at h; cases h
      | some pp =>
        obtain ⟨pre', post'⟩ := pp
        rw [hrec] at h
        simp only [Option.some.injEq, Prod.mk.injEq] at h
        obtain ⟨h1, h2⟩ := h
        subst h1
        subst h2
        obtain ⟨hp, hq⟩ := ih _ _ hrec
        exact ⟨List.cons_subset_cons c hp, hq.trans (List.subset_cons_self c cs)⟩

theorem segmentAfterFirst_subset (pat cs : List Char) :
    segmentAfterFirst pat cs ⊆ cs := by
  unfold segmentAfterFirst
  split
  · rename_i fst after h1
    have hafter := (splitFirst_subset pat cs fst after h1).2
    split
    · rename_i pre snd h2
      exact ((splitFirst_subset pat after pre snd h2).1).trans hafter
    · exact hafter
  · exact fun x hx => hx

theorem splitOnChar_subset (sep : Char) (cs : List Char) :
    ∀ p ∈ splitOnChar sep cs, p ⊆ cs := by
  induction cs with
  | nil =>
    intro p hp
    simp only [splitOnChar, List.mem_singleton] at hp
    subst hp
    exact List.nil_subset _
  | cons c cs ih =>
    intro p hp
    unfold splitOnChar at hp
    by_cases hc : c = sep
    · rw [if_pos hc] at hp
      rcases List.mem_cons.1 hp with hp | hp
      · subst hp
        exact List.nil_subset _
      · exact (ih p hp).trans (List.subset_cons_self c cs)
    · rw [if_neg hc] at hp
      cases hrec : splitOnChar sep cs with
      | nil =>
        rw [hrec] at hp
        rcases List.mem_cons.1 hp with hp | hp
        · subst hp
          exact List.cons_subset_cons c (List.nil_subset cs)
        · cases hp
      | cons q qs =>
        rw [hrec] at hp
        rcases List.mem_cons.1 hp with hp | hp
        · subst hp
          have hq := ih q (by rw [hrec]; exact List.mem_cons_self q qs)
          exact List.cons_subset_cons c hq
        · have hq := ih p (by rw [hrec]; exact List.mem_cons_of_mem q hp)
          exact hq.trans (List.subset_cons_self c cs)

theorem pyInt_nonneg (cs : List Char) (hm : '-' ∉ cs) (n : Int)
    (h : pyInt cs = some n) : 0 ≤ n := by
  cases cs with
  | nil => simp [pyInt] at h
  | cons c rest =>
    simp only [pyInt] at h
    by_cases hp : c = '+'
    · rw [if_pos hp] at h
      obtain ⟨m, _, rfl⟩ := Option.map_eq_some'.mp h
      exact Int.natCast_nonneg m
    · rw [if_neg hp] at h
      by_cases hn : c = '-'
      · subst hn
        exact absurd (List.mem_cons_self _ _) hm
      · rw [if_neg hn] at h
        obtain ⟨m, _, rfl⟩ := Option.map_eq_some'.mp h
        exact Int.natCast_nonneg m

theorem paxStepStripped_nonneg (acc : Int × Int × Int) (part : List Char)
    (hm : '-' ∉ part) (h1 : 0 ≤ acc.1) (h2 : 0 ≤ acc.2.1) (h3 : 0 ≤ acc.2.2) :
    0 ≤ (paxStepStripped acc part).1 ∧ 0 ≤ (paxStepStripped acc part).2.1 ∧
    0 ≤ (paxStepStripped acc part).2.2 := by
  have hseg : ∀ pat : List Char,
      '-' ∉ stripChars (segmentAfterFirst pat part) := fun pat hx =>
    hm (segmentAfterFirst_subset pat _ (stripChars_subset _ hx))
  unfold paxStepStripped
  split
  · split
    · rename_i n hI
      exact ⟨add_nonneg h1 (pyInt_nonneg _ (hseg _) n hI), h2, h3⟩
    · exact ⟨h1, h2, h3⟩
  · split
    · split
      · rename_i n hI
        exact ⟨h1, add_nonneg h2 (pyInt_nonneg _ (hseg _) n hI), h3⟩
      · exact ⟨h1, h2, h3⟩
    · split
      · split
        · rename_i n hI
          exact ⟨h1, h2, add_nonneg h3 (pyInt_nonneg _ (hseg _) n hI)⟩
        · exact ⟨h1, h2, h3⟩
      · exact ⟨h1, h2, h3⟩

theorem paxStep_nonneg (acc : Int × Int × Int) (part0 : List Char)
    (hm : '-' ∉ part0) (h1 : 0 ≤ acc.1) (h2 : 0 ≤ acc.2.1) (h3 : 0 ≤ acc.2.2) :
    0 ≤ (paxStep acc part0).1 ∧ 0 ≤ (paxStep acc part0).2.1 ∧
    0 ≤ (paxStep acc part0).2.2 :=
  paxStepStripped_nonneg acc (stripChars part0)
    (fun hx => hm (stripChars_subset part0 hx)) h1 h2 h3

theorem paxFold_nonneg (parts : List (List Char)) :
    ∀ acc : Int × Int × Int, (∀ p ∈ parts, '-' ∉ p) →
      0 ≤ acc.1 → 0 ≤ acc.2.1 → 0 ≤ acc.2.2 →
      0 ≤ (parts.foldl paxStep acc).1 ∧ 0 ≤ (parts.foldl paxStep acc).2.1 ∧
      0 ≤ (parts.foldl paxStep acc).2.2 := by
  induction parts with
  | nil => exact fun acc _ h1 h2 h3 => ⟨h1, h2, h3⟩
  | cons p ps ih =>
    intro acc hall h1 h2 h3
    simp only [List.foldl_cons]
    obtain ⟨k1, k2, k3⟩ := paxStep_nonneg acc p (hall p (List.mem_cons_self p ps)) h1 h2 h3
    exact ih _ (fun q hq => hall q (List.mem_cons_of_mem p hq)) k1 k2 k3

/-- C7 (counterexample): the claim asserts the parser always returns
three non-negative integers, but Python `int` accepts a sign, so the
input "Adults:-1" parses to an adults count of -1. -/
theorem C7_counterexample :
    parse_pax (some "Adults:-1") = (-1, 0, 0) ∧ ¬(0 ≤ (parse_pax (some "Adults:-1")).1) := by
  refine ⟨by decide, by decide⟩

/-- C7 (amended): the parser returns three integers; each labelled count
is accumulated when its field parses as an integer, a present but
non-numeric field counts as zero without failing the parse, any subset
of the three fields may be absent and defaults to zero, empty or absent
input yields `(0, 0, 0)`, and unrecognized tokens are ignored; the
results are non-negative for every input that contains no minus sign
(but a negative count in the input is accumulated as-is). -/
theorem C7_pax (s : String) :
    parse_pax (some "Adults: 2, Children:1,Infant: 0") = (2, 1, 0)
  ∧ parse_pax (some "Adults:abc") = (0, 0, 0)
  ∧ parse_pax (some "") = (0, 0, 0)
  ∧ parse_pax none = (0, 0, 0)
  ∧ parse_pax (some "Infant: 3") = (0, 0, 3)
  ∧ parse_pax (some "foo, bar, Adults: 1") = (1, 0, 0)
  ∧ ('-' ∉ s.toList →
      0 ≤ (parse_pax (some s)).1 ∧ 0 ≤ (parse_pax (some s)).2.1 ∧
      0 ≤ (parse_pax (some s)).2.2) := by
  refine ⟨by decide, by decide, by decide, by decide, by decide, by decide,
    fun hminus => ?_⟩
  by_cases hs : s = ""
  · subst hs
    exact ⟨by decide, by decide, by decide⟩
  · have hrw : parse_pax (some s) = (splitOnChar ',' s.toList).foldl paxStep (0, 0, 0) := by
      simp [parse_pax, hs]
    rw [hrw]
    exact paxFold_nonneg _ _
      (fun p hp hx => hminus (splitOnChar_subset ',' s.toList p hp hx))
      (by decide) (by decide) (by decide)

/-- C7 (witness): the amended theorem's non-negativity clause at a
concrete minus-free input. -/
theorem C7_witness :
    0 ≤ (parse_pax (some "Adults: 2")).1 ∧ 0 ≤ (parse_pax (some "Adults: 2")).2.1 ∧
    0 ≤ (parse_pax (some "Adults: 2")).2.2 :=
  (C7_pax "Adults: 2").2.2.2.2.2.2 (by decide)

/- ## C2: insert-outcome classification -/

/-- A minimal API booking with a booking id. -/
def exBooking1 : StayflexiBooking :=
  { emptyBooking with bookingId := "BK1" }

/-- C2 (counterexample): the claim asserts that a non-duplicate store
failure increments `errors`; on a store whose every insert fails with a
non-duplicate error, syncing one record yields `errors = 0` and
`skipped = 1` — `insert_online_reservation` returns the same `False`
for a duplicate-key violation and for any other failure, and the loop
counts every `False` as skipped. -/
theorem C2_counterexample :
    (sync_property_bookings failStore (fun _ => false) "P"
        (FetchResult.records [exBooking1]) () []).1.counts.errors = 0
  ∧ (sync_property_bookings failStore (fun _ => false) "P"
        (FetchResult.records [exBooking1]) () []).1.counts.skipped = 1
  ∧ (sync_property_bookings failStore (fun _ => false) "P"
        (FetchResult.records [exBooking1]) () []).1.counts.inserted = 0 := by
  refine ⟨by decide, by decide, by decide⟩

/-- C2 (amended): for every record whose insert is attempted, a
store-reported duplicate-key violation and any other store failure
alike increment the `skipped` counter — never `errors`, which counts
only exceptions raised by the loop body outside the insert call — and
in all cases the run continues with the next record. -/
theorem C2_insert_outcomes (σ : Type) (M : InsertFun σ)
    (raises : StayflexiBooking → Bool) (pname : String) (s : SyncState σ)
    (b : StayflexiBooking) (rest : List StayflexiBooking)
    (hr : raises b = false)
    (hmem : (transform_stayflexi_to_db_format b pname).booking_id ∉ s.existing) :
    ((M s.store (truncate_reservation (transform_stayflexi_to_db_format b pname))).1
        ≠ InsertOutcome.ok →
      (sync_step M raises pname s b).counts.skipped = s.counts.skipped + 1
      ∧ (sync_step M raises pname s b).counts.errors = s.counts.errors
      ∧ (sync_step M raises pname s b).counts.inserted = s.counts.inserted)
  ∧ List.foldl (sync_step M raises pname) s (b :: rest)
      = List.foldl (sync_step M raises pname) (sync_step M raises pname s b) rest := by
  refine ⟨fun hout => ?_, rfl⟩
  unfold sync_step insert_online_reservation
  rw [hr]
  simp only [Bool.false_eq_true, if_false, if_neg hmem]
  rcases hM : M s.store (truncate_reservation (transform_stayflexi_to_db_format b pname))
    with ⟨out, st'⟩
  rw [hM] at hout
  cases out with
  | ok => exact absurd rfl hout
  | dupKey => refine ⟨?_, ?_, ?_⟩ <;> simp
  | otherFail => refine ⟨?_, ?_, ?_⟩ <;> simp

/-- C2 (witness): the amended theorem on the always-failing store with
one concrete record. -/
theorem C2_witness :
    (sync_step failStore (fun _ => false) "P" ⟨(), [], Counters.zero⟩ exBooking1).counts.skipped
      = Counters.zero.skipped + 1
  ∧ (sync_step failStore (fun _ => false) "P" ⟨(), [], Counters.zero⟩ exBooking1).counts.errors
      = Counters.zero.errors
  ∧ (sync_step failStore (fun _ => false) "P" ⟨(), [], Counters.zero⟩ exBooking1).counts.inserted
      = Counters.zero.inserted :=
  (C2_insert_outcomes Unit failStore (fun _ => false) "P" ⟨(), [], Counters.zero⟩
    exBooking1 [] rfl (by decide)).1 (by decide)

/- ## C4: sync abort semantics -/

theorem fetched_not_auth {f : FetchResult} (h : f ≠ FetchResult.authError) :
    ∃ bs, f = FetchResult.records bs := by
  cases f with
  | authError => exact absurd rfl h
  | records bs => exact ⟨bs, rfl⟩

/-- C4: if the fetch for one source unit reports an authentication
failure, the whole run equals the run over the preceding units alone
with the auth-error flag set: the counters and per-property results
accumulated for units before the failing one are preserved and
reported, the failure is reported distinctly via the flag (the prefix
run leaves the flag untouched, and the failing unit contributes nothing
to `errors`), and the units after the failing one — universally
quantified and absent from the result — are never fetched or
processed. -/
theorem C4_sync_abort (σ : Type) (M : InsertFun σ) (raises : StayflexiBooking → Bool)
    (us1 : List ApiUnit) (u : ApiUnit) (us2 : List ApiUnit) (acc : ApiRun σ)
    (h1 : ∀ v ∈ us1, v.fetched ≠ FetchResult.authError)
    (h2 : u.fetched = FetchResult.authError) :
    runApiSync M raises (us1 ++ u :: us2) acc
      = { runApiSync M raises us1 acc with auth_error := true }
  ∧ (runApiSync M raises us1 acc).auth_error = acc.auth_error := by
  induction us1 generalizing acc with
  | nil =>
    constructor
    · simp only [List.nil_append]
      unfold runApiSync
      rw [h2]
      simp [sync_property_bookings]
    · rfl
  | cons v vs ih =>
    obtain ⟨bs, hbs⟩ := fetched_not_auth (h1 v (List.mem_cons_self v vs))
    have htail : ∀ w ∈ vs, w.fetched ≠ FetchResult.authError :=
      fun w hw => h1 w (List.mem_cons_of_mem v hw)
    constructor
    · simp only [List.cons_append]
      unfold runApiSync
      rw [hbs]
      simp only [sync_property_bookings]
      exact (ih _ htail).1
    · unfold runApiSync
      rw [hbs]
      simp only [sync_property_bookings]
      exact (ih _ htail).2

/-- C4 (witness): three concrete properties, the second failing
authentication — exactly the first property's results are kept, the
auth flag is raised, the third unit is never processed. -/
theorem C4_witness :
    runApiSync setStore (fun _ => false)
        ([⟨"P1", FetchResult.records [exBooking1]⟩] ++
          (⟨"P2", FetchResult.authError⟩ : ApiUnit) ::
          [⟨"P3", FetchResult.records [exBooking1]⟩])
        (initApiRun ([] : List String) [])
      = { runApiSync setStore (fun _ => false)
            [⟨"P1", FetchResult.records [exBooking1]⟩]
            (initApiRun ([] : List String) []) with auth_error := true }
  ∧ (runApiSync setStore (fun _ => false)
        [⟨"P1", FetchResult.records [exBooking1]⟩]
        (initApiRun ([] : List String) [])).auth_error
      = (initApiRun ([] : List String) []).auth_error :=
  C4_sync_abort (List String) setStore (fun _ => false)
    [⟨"P1", FetchResult.records [exBooking1]⟩]
    ⟨"P2", FetchResult.authError⟩
    [⟨"P3", FetchResult.records [exBooking1]⟩]
    (initApiRun [] []) (by decide) rfl

/- ## C9: block filtering -/

/-- A reservation entry whose status marks it as an administrative room
block. -/
def blockedBooking : StayflexiBooking :=
  { emptyBooking with reservationStatus := "BLOCKED" }

def roomExample : RoomData :=
  { roomId := "R1", roomTypeName := "Deluxe", resInfoList := [] }

/-- C9: no entry of the fetched booking list is BLOCKED, inserting a
BLOCKED entry anywhere in an API response leaves the fetched list
unchanged, and consequently such an entry leaves the whole per-property
sync (hence both the inserted and the skipped counter) unchanged. -/
theorem C9_block_filtering (resp : ApiResponse) (pre post : List RoomData)
    (room : RoomData) (l1 l2 : List StayflexiBooking) (b : StayflexiBooking) :
    (∀ x ∈ extract_bookings resp, x.reservationStatus ≠ "BLOCKED")
  ∧ (b.reservationStatus = "BLOCKED" →
      extract_bookings ⟨pre ++ ({ room with resInfoList := l1 ++ b :: l2 }) :: post⟩
        = extract_bookings ⟨pre ++ ({ room with resInfoList := l1 ++ l2 }) :: post⟩)
  ∧ (b.reservationStatus = "BLOCKED" →
      ∀ (σ : Type) (M : InsertFun σ) (raises : StayflexiBooking → Bool)
        (pname : String) (st : σ) (existing : List String),
        sync_property_bookings M raises pname
            (fetch_stayflexi_bookings (HttpResult.okJson
              ⟨pre ++ ({ room with resInfoList := l1 ++ b :: l2 }) :: post⟩)) st existing
          = sync_property_bookings M raises pname
            (fetch_stayflexi_bookings (HttpResult.okJson
              ⟨pre ++ ({ room with resInfoList := l1 ++ l2 }) :: post⟩)) st existing) := by
  have hfilter : b.reservationStatus = "BLOCKED" →
      extract_bookings ⟨pre ++ ({ room with resInfoList := l1 ++ b :: l2 }) :: post⟩
        = extract_bookings ⟨pre ++ ({ room with resInfoList := l1 ++ l2 }) :: post⟩ := by
    intro hb
    simp [extract_bookings, List.filter_append, hb]
  refine ⟨?_, hfilter,
    fun hb σ M raises pname st existing => by
      show sync_property_bookings M raises pname (FetchResult.records _) st existing = _
      rw [hfilter hb]
      rfl⟩
  intro x hx
  simp only [extract_bookings, List.mem_flatMap, List.mem_map, List.mem_filter,
    decide_not, Bool.not_eq_eq_eq_not, Bool.not_true, decide_eq_false_iff_not] at hx
  obtain ⟨rm, _, r, ⟨_, hstat⟩, hfx⟩ := hx
  subst hfx
  exact hstat

/-- C9 (witness): a response holding one room with one BLOCKED entry
extracts the same booking list as the response with the entry removed. -/
theorem C9_witness :
    extract_bookings ⟨[{ roomExample with resInfoList := [blockedBooking] }]⟩
      = extract_bookings ⟨[{ roomExample with resInfoList := [] }]⟩ :=
  (C9_block_filtering ⟨[]⟩ [] [] roomExample [] [] blockedBooking).2.1 rfl

/- ## C3: deduplication and idempotence

The keyed store inserts under the TRUNCATED booking id, while both
in-run duplicate checks compare the untruncated id against the
existing-keys snapshot; the invariant linking the two is that every key
of the snapshot is in the store either as-is or truncated. -/

theorem sync_step_setStore (raises : StayflexiBooking → Bool) (p : String)
    (s : SyncState (List String)) (b : StayflexiBooking) :
    sync_step setStore raises p s b =
      if raises b then
        { s with counts := { s.counts with errors := s.counts.errors + 1 } }
      else if (transform_stayflexi_to_db_format b p).booking_id ∈ s.existing then
        { s with counts := { s.counts with skipped := s.counts.skipped + 1 } }
      else if (truncate_reservation (transform_stayflexi_to_db_format b p)).booking_id
          ∈ s.store then
        { s with counts := { s.counts with skipped := s.counts.skipped + 1 } }
      else
        { store := (truncate_reservation (transform_stayflexi_to_db_format b p)).booking_id
            :: s.store
          existing := (transform_stayflexi_to_db_format b p).booking_id :: s.existing
          counts := { s.counts with inserted := s.counts.inserted + 1 } } := by
  unfold sync_step insert_online_reservation setStore
  by_cases hr : raises b
  · simp [hr]
  · simp only [hr, Bool.false_eq_true, if_false]
    by_cases h1 : (transform_stayflexi_to_db_format b p).booking_id ∈ s.existing
    · simp [h1]
    · simp only [h1, if_false, if_neg h1]
      by_cases h2 : (truncate_reservation (transform_stayflexi_to_db_format b p)).booking_id
          ∈ s.store
      · simp [h2]
      · simp [h2]

theorem sync_step_store_mono (raises : StayflexiBooking → Bool) (p : String)
    (s : SyncState (List String)) (b : StayflexiBooking) (x : String)
    (hx : x ∈ s.store) : x ∈ (sync_step setStore raises p s b).store := by
  rw [sync_step_setStore]
  split_ifs
  · exact hx
  · exact hx
  · exact hx
  · exact List.mem_cons_of_mem _ hx

theorem sync_fold_store_mono (raises : StayflexiBooking → Bool) (p : String)
    (bs : List StayflexiBooking) :
    ∀ (s : SyncState (List String)) (x : String), x ∈ s.store →
      x ∈ (bs.foldl (sync_step setStore raises p) s).store := by
  induction bs with
  | nil => exact fun s x hx => hx
  | cons b bs ih =>
    intro s x hx
    simp only [List.foldl_cons]
    exact ih _ x (sync_step_store_mono raises p s b x hx)

/-- The invariant of one API sync run against the keyed store: every
key of the in-run existing set is persisted, as-is or truncated. -/
def SyncInv (s : SyncState (List String)) : Prop :=
  ∀ x ∈ s.existing, x ∈ s.store ∨ truncate_string x 50 ∈ s.store

theorem sync_step_inv (raises : StayflexiBooking → Bool) (p : String)
    (s : SyncState (List String)) (b : StayflexiBooking)
    (h : SyncInv s) : SyncInv (sync_step setStore raises p s b) := by
  rw [sync_step_setStore]
  split_ifs with h1 h2 h3
  · exact h
  · exact h
  · exact h
  · intro x hx
    rcases List.mem_cons.1 hx with rfl | hx
    · exact Or.inr (List.mem_cons_self _ _)
    · rcases h x hx with hx' | hx'
      · exact Or.inl (List.mem_cons_of_mem _ hx')
      · exact Or.inr (List.mem_cons_of_mem _ hx')

theorem sync_fold_covers (raises : StayflexiBooking → Bool) (p : String)
    (bs : List StayflexiBooking) :
    ∀ s : SyncState (List String), SyncInv s →
      ∀ b ∈ bs, raises b = false →
        (transform_stayflexi_to_db_format b p).booking_id
            ∈ (bs.foldl (sync_step setStore raises p) s).store
          ∨ (truncate_reservation (transform_stayflexi_to_db_format b p)).booking_id
            ∈ (bs.foldl (sync_step setStore raises p) s).store := by
  induction bs with
  | nil => intro s _ b hb; cases hb
  | cons c cs ih =>
    intro s hinv b hb hraise
    simp only [List.foldl_cons]
    rcases List.mem_cons.1 hb with rfl | hb
    · have hstep : (transform_stayflexi_to_db_format b p).booking_id
            ∈ (sync_step setStore raises p s b).store
          ∨ (truncate_reservation (transform_stayflexi_to_db_format b p)).booking_id
            ∈ (sync_step setStore raises p s b).store := by
        rw [sync_step_setStore, hraise]
        simp only [Bool.false_eq_true, if_false]
        split_ifs with h1 h2
        · exact hinv _ h1
        · exact Or.inr h2
        · exact Or.inr (List.mem_cons_self _ _)
      rcases hstep with hx | hx
      · exact Or.inl (sync_fold_store_mono raises p cs _ _ hx)
      · exact Or.inr (sync_fold_store_mono raises p cs _ _ hx)
    · exact ih _ (sync_step_inv raises p s c hinv) b hb hraise

theorem sync_fold_no_insert (raises : StayflexiBooking → Bool) (p : String)
    (bs2 : List StayflexiBooking) (S1 : List String) :
    ∀ s2 : SyncState (List String),
      (∀ b ∈ bs2, raises b = false →
        (transform_stayflexi_to_db_format b p).booking_id ∈ S1
        ∨ (truncate_reservation (transform_stayflexi_to_db_format b p)).booking_id ∈ S1) →
      (∀ x ∈ S1, x ∈ s2.store) → (∀ x ∈ S1, x ∈ s2.existing) →
      (bs2.foldl (sync_step setStore raises p) s2).counts.inserted
        = s2.counts.inserted := by
  induction bs2 with
  | nil => intro s2 _ _ _; rfl
  | cons b bs ih =>
    intro s2 hcov hsub hex
    simp only [List.foldl_cons]
    have hstep : (sync_step setStore raises p s2 b).counts.inserted = s2.counts.inserted
        ∧ (∀ x ∈ S1, x ∈ (sync_step setStore raises p s2 b).store)
        ∧ (∀ x ∈ S1, x ∈ (sync_step setStore raises p s2 b).existing) := by
      rw [sync_step_setStore]
      by_cases hr : raises b
      · rw [if_pos hr]
        exact ⟨rfl, hsub, hex⟩
      · rw [if_neg hr]
        have hr' : raises b = false := by simpa using hr
        rcases hcov b (List.mem_cons_self b bs) hr' with hc | hc
        · rw [if_pos (hex _ hc)]
          exact ⟨rfl, hsub, hex⟩
        · by_cases h1 : (transform_stayflexi_to_db_format b p).booking_id ∈ s2.existing
          · rw [if_pos h1]
            exact ⟨rfl, hsub, hex⟩
          · rw [if_neg h1, if_pos (hsub _ hc)]
            exact ⟨rfl, hsub, hex⟩
    exact ((ih _ (fun c hc hrc => hcov c (List.mem_cons_of_mem b hc) hrc)
      hstep.2.1 hstep.2.2).trans hstep.1)

/- Spreadsheet-path analogues. -/

theorem excel_step_setStore (s : ExcelState (List String)) (row : ExcelRow) :
    excel_step setStore s row =
      if row.booking_id = "" then s
      else if row.booking_id ∈ s.existing then { s with skipped := s.skipped + 1 }
      else if (truncate_reservation (excel_row_to_reservation row)).booking_id
          ∈ s.store then s
      else
        { s with
          store := (truncate_reservation (excel_row_to_reservation row)).booking_id
            :: s.store
          inserted := s.inserted + 1 } := by
  unfold excel_step insert_online_reservation setStore
  by_cases h0 : row.booking_id = ""
  · simp [h0]
  · simp only [h0, if_false, if_neg h0]
    by_cases h1 : row.booking_id ∈ s.existing
    · simp [h1]
    · simp only [h1, if_false, if_neg h1]
      by_cases h2 : (truncate_reservation (excel_row_to_reservation row)).booking_id
          ∈ s.store
      · simp [h2]
      · simp [h2]

theorem excel_step_store_mono (s : ExcelState (List String)) (r : ExcelRow)
    (x : String) (hx : x ∈ s.store) : x ∈ (excel_step setStore s r).store := by
  rw [excel_step_setStore]
  split_ifs
  · exact hx
  · exact hx
  · exact hx
  · exact List.mem_cons_of_mem _ hx

theorem excel_fold_store_mono (rows : List ExcelRow) :
    ∀ (s : ExcelState (List String)) (x : String), x ∈ s.store →
      x ∈ (rows.foldl (excel_step setStore) s).store := by
  induction rows with
  | nil => exact fun s x hx => hx
  | cons r rs ih =>
    intro s x hx
    simp only [List.foldl_cons]
    exact ih _ x (excel_step_store_mono s r x hx)

theorem excel_step_existing_eq (s : ExcelState (List String)) (r : ExcelRow) :
    (excel_step setStore s r).existing = s.existing := by
  rw [excel_step_setStore]
  split_ifs
  · rfl
  · rfl
  · rfl
  · rfl

theorem excel_fold_covers (rows : List ExcelRow) :
    ∀ s : ExcelState (List String),
      (∀ x ∈ s.existing, x ∈ s.store ∨ truncate_string x 50 ∈ s.store) →
      ∀ row ∈ rows, row.booking_id ≠ "" →
        row.booking_id ∈ (rows.foldl (excel_step setStore) s).store
        ∨ (truncate_reservation (excel_row_to_reservation row)).booking_id
          ∈ (rows.foldl (excel_step setStore) s).store := by
  induction rows with
  | nil => intro s _ row hrow; cases hrow
  | cons r rs ih =>
    intro s hinv row hrow hne
    simp only [List.foldl_cons]
    rcases List.mem_cons.1 hrow with rfl | hrow
    · have hstep : row.booking_id ∈ (excel_step setStore s row).store
          ∨ (truncate_reservation (excel_row_to_reservation row)).booking_id
            ∈ (excel_step setStore s row).store := by
        rw [excel_step_setStore, if_neg hne]
        split_ifs with h1 h2
        · exact hinv _ h1
        · exact Or.inr h2
        · exact Or.inr (List.mem_cons_self _ _)
      rcases hstep with hx | hx
      · exact Or.inl (excel_fold_store_mono rs _ _ hx)
      · exact Or.inr (excel_fold_store_mono rs _ _ hx)
    · refine ih _ ?_ row hrow hne
      rw [excel_step_existing_eq]
      intro x hx
      rcases hinv x hx with hx' | hx'
      · exact Or.inl (excel_step_store_mono s r x hx')
      · exact Or.inr (excel_step_store_mono s r (truncate_string x 50) hx')

theorem excel_fold_no_insert (rows2 : List ExcelRow) (S1 : List String) :
    ∀ s2 : ExcelState (List String),
      (∀ row ∈ rows2, row.booking_id ≠ "" →
        row.booking_id ∈ S1
        ∨ (truncate_reservation (excel_row_to_reservation row)).booking_id ∈ S1) →
      (∀ x ∈ S1, x ∈ s2.store) → (∀ x ∈ S1, x ∈ s2.existing) →
      (rows2.foldl (excel_step setStore) s2).inserted = s2.inserted := by
  induction rows2 with
  | nil => intro s2 _ _ _; rfl
  | cons r rs ih =>
    intro s2 hcov hsub hex
    simp only [List.foldl_cons]
    have hstep : (excel_step setStore s2 r).inserted = s2.inserted
        ∧ (∀ x ∈ S1, x ∈ (excel_step setStore s2 r).store)
        ∧ (∀ x ∈ S1, x ∈ (excel_step setStore s2 r).existing) := by
      rw [excel_step_setStore]
      by_cases h0 : r.booking_id = ""
      · rw [if_pos h0]
        exact ⟨rfl, hsub, hex⟩
      · rw [if_neg h0]
        rcases hcov r (List.mem_cons_self r rs) h0 with hc | hc
        · rw [if_pos (hex _ hc)]
          exact ⟨rfl, hsub, hex⟩
        · by_cases h1 : r.booking_id ∈ s2.existing
          · rw [if_pos h1]
            exact ⟨rfl, hsub, hex⟩
          · rw [if_neg h1, if_pos (hsub _ hc)]
            exact ⟨rfl, hsub, hex⟩
    exact ((ih _ (fun q hq hqn => hcov q (List.mem_cons_of_mem r hq) hqn)
      hstep.2.1 hstep.2.2).trans hstep.1)

/-- A spreadsheet row with booking id "B1" and every other cell at its
default. -/
def dupRow : ExcelRow :=
  { property_name := "P", booking_id := "B1", booking_made_on := none,
    customer_name := "", customer_phone := "", checkin := none, checkout := none,
    pax := "", room_ids := "", room_types := "", rate_plans := "",
    booking_source := "", segment := "", status := "", booking_amount := 0,
    total_payment_made := 0, balance_due := 0, special_requests := "",
    total_amount_with_services := 0, ota_gross_amount := 0, ota_commission := 0,
    ota_tax := 0, ota_net_amount := 0, room_revenue := 0 }

/-- C3 (counterexample): the claim asserts that a record whose
booking_id was successfully inserted earlier in the same run is counted
as skipped without a store insert being attempted; on the spreadsheet
path, a file holding the same row twice yields `skipped = 0` and two
insert attempts reaching the store — the path never adds an inserted id
to the in-run set, so the second row's insert is attempted and the
store's duplicate rejection is counted neither as skipped nor as
inserted. -/
theorem C3_counterexample :
    (process_and_sync_excel countingStore ([], 0) [] [dupRow, dupRow]).inserted = 1
  ∧ (process_and_sync_excel countingStore ([], 0) [] [dupRow, dupRow]).skipped = 0
  ∧ (process_and_sync_excel countingStore ([], 0) [] [dupRow, dupRow]).store.2 = 2 := by
  refine ⟨by decide, by decide, by decide⟩

/-- C3 (amended): on the API sync path, a record whose booking_id is in
the in-run existing-keys set is counted as skipped with no store
contact, and every successful insert adds the booking_id to that set;
on the spreadsheet path only records whose booking_id is in the
initial snapshot are skipped without store contact — a successful
insert does not update the in-run set, so an id repeated within one
file is re-attempted against the store (which rejects it as a
duplicate, counted neither skipped nor inserted).  On both paths,
running the same sync twice against an unchanged source inserts 0
records the second time. -/
theorem C3_dedup (σ : Type) (M : InsertFun σ) (raises : StayflexiBooking → Bool)
    (p : String) (s : SyncState σ) (b : StayflexiBooking) (st' : σ)
    (srow : ExcelState σ) (row : ExcelRow)
    (bs : List StayflexiBooking) (rows : List ExcelRow) (store0 : List String) :
    (raises b = false →
      (transform_stayflexi_to_db_format b p).booking_id ∈ s.existing →
      sync_step M raises p s b
        = { s with counts := { s.counts with skipped := s.counts.skipped + 1 } })
  ∧ (raises b = false →
      (transform_stayflexi_to_db_format b p).booking_id ∉ s.existing →
      insert_online_reservation M s.store (transform_stayflexi_to_db_format b p)
        = (true, st') →
      (sync_step M raises p s b).existing
        = (transform_stayflexi_to_db_format b p).booking_id :: s.existing)
  ∧ (row.booking_id ≠ "" → row.booking_id ∈ srow.existing →
      excel_step M srow row = { srow with skipped := srow.skipped + 1 })
  ∧ ((sync_property_bookings setStore raises p (FetchResult.records bs)
        ((sync_property_bookings setStore raises p (FetchResult.records bs)
          store0 store0).1.store)
        ((sync_property_bookings setStore raises p (FetchResult.records bs)
          store0 store0).1.store)).1.counts.inserted = 0)
  ∧ ((process_and_sync_excel setStore
        ((process_and_sync_excel setStore store0 store0 rows).store)
        ((process_and_sync_excel setStore store0 store0 rows).store)
        rows).inserted = 0) := by
  refine ⟨fun hr hmem => ?_, fun hr hmem hins => ?_, fun hne hmem => ?_, ?_, ?_⟩
  · unfold sync_step
    rw [hr]
    simp only [Bool.false_eq_true, if_false, if_pos hmem]
  · unfold sync_step
    rw [hr]
    simp only [Bool.false_eq_true, if_false, if_neg hmem, hins]
  · unfold excel_step
    rw [if_neg hne, if_pos hmem]
  · show (bs.foldl (sync_step setStore raises p)
        ⟨(bs.foldl (sync_step setStore raises p) ⟨store0, store0, Counters.zero⟩).store,
         (bs.foldl (sync_step setStore raises p) ⟨store0, store0, Counters.zero⟩).store,
         Counters.zero⟩).counts.inserted = 0
    exact sync_fold_no_insert raises p bs
      (bs.foldl (sync_step setStore raises p) ⟨store0, store0, Counters.zero⟩).store
      ⟨(bs.foldl (sync_step setStore raises p) ⟨store0, store0, Counters.zero⟩).store,
       (bs.foldl (sync_step setStore raises p) ⟨store0, store0, Counters.zero⟩).store,
       Counters.zero⟩
      (sync_fold_covers raises p bs ⟨store0, store0, Counters.zero⟩
        (fun x hx => Or.inl hx))
      (fun x hx => hx) (fun x hx => hx)
  · show (rows.foldl (excel_step setStore)
        ⟨(rows.foldl (excel_step setStore) ⟨store0, store0, 0, 0⟩).store,
         (rows.foldl (excel_step setStore) ⟨store0, store0, 0, 0⟩).store, 0, 0⟩).inserted = 0
    exact excel_fold_no_insert rows
      (rows.foldl (excel_step setStore) ⟨store0, store0, 0, 0⟩).store
      ⟨(rows.foldl (excel_step setStore) ⟨store0, store0, 0, 0⟩).store,
       (rows.foldl (excel_step setStore) ⟨store0, store0, 0, 0⟩).store, 0, 0⟩
      (excel_fold_covers rows ⟨store0, store0, 0, 0⟩ (fun x hx => Or.inl hx))
      (fun x hx => hx) (fun x hx => hx)

/-- C3 (witness): the amended theorem's API skip clause at a concrete
state whose snapshot already holds the record's booking id. -/
theorem C3_witness :
    sync_step setStore (fun _ => false) "P"
        ⟨["BK1"], ["BK1"], Counters.zero⟩ exBooking1
      = ⟨["BK1"], ["BK1"], ⟨0, 1, 0⟩⟩ :=
  (C3_dedup (List String) setStore (fun _ => false) "P"
      ⟨["BK1"], ["BK1"], Counters.zero⟩ exBooking1 [] ⟨[], [], 0, 0⟩ dupRow [] [] []).1
    rfl (by decide)

end TieApi
